import Mathlib

/-!
Shallow embedding of `nazca_example.py`, a one-shot visualization script:
it downloads an earthquake catalog from the IRIS FDSN service, converts the
catalog to a tabular structure, loads and filters a volcano dataset, and
renders one annotated map saved to `nazca_plate_map.png`.

Numeric data (coordinates, depths, magnitudes) is modelled with `ℚ`;
`obspy.UTCDateTime` arguments are modelled by their literal date strings.
Library calls that can raise are modelled with `Except String`; the script
is a function from an environment (the results the libraries would return)
to either a propagated exception or a run result consisting of an effect
trace and the files written.
-/

/-- An obspy `Origin`: position, depth in metres, and origin time.
`depth` and `time` are optional because obspy allows them to be absent,
in which case `origin.depth / 1000` resp. `origin.time.strftime(...)`
raises inside the per-event `try` block. -/
structure Origin where
  longitude : ℚ
  latitude : ℚ
  depth : Option ℚ
  time : Option String
deriving DecidableEq

/-- An obspy `Magnitude` with its value. -/
structure Magnitude where
  mag : ℚ
deriving DecidableEq

/-- An obspy `Event`: optional preferred origin/magnitude plus the lists
of all origins and magnitudes. -/
structure Event where
  preferredOrigin : Option Origin
  origins : List Origin
  preferredMagnitude : Option Magnitude
  magnitudes : List Magnitude
deriving DecidableEq

/-- One row of the earthquake DataFrame `eq_df` built by the script. -/
structure Row where
  lon : ℚ
  lat : ℚ
  depth : ℚ
  mag : ℚ
  time : String
deriving DecidableEq

/-- One row of the `world_volcanoes` sample dataset. -/
structure Volcano where
  longitude : ℚ
  latitude : ℚ
  name : String
deriving DecidableEq

/-- The relief grid returned by `pygmt.datasets.load_earth_relief`; the
script passes it through to `fig.grdimage` unchanged, so its contents are
an opaque matrix of elevations. -/
structure Grid where
  values : List (List ℚ)
deriving DecidableEq

/-- Bounding box of the Nazca plate region, `[lon_min, lon_max, lat_min, lat_max]`. -/
def REGION : List ℚ := [-110, -70, -60, 10]

/-- Start of the event time window (`obspy.UTCDateTime("2010-01-01")`). -/
def START_TIME : String := "2010-01-01"

/-- End of the event time window (`obspy.UTCDateTime("2025-01-01")`). -/
def END_TIME : String := "2025-01-01"

/-- Minimum magnitude passed to the event query. -/
def MIN_MAGNITUDE : ℚ := 5.5

/-- The hard-coded 1960 Valdivia earthquake dictionary. -/
structure FamousEq where
  lon : ℚ
  lat : ℚ
  depth : ℚ
  mag : ℚ
  label : String
deriving DecidableEq

/-- The `FAMOUS_EQ` constant of the script. -/
def FAMOUS_EQ : FamousEq :=
  { lon := -73.05, lat := -38.29, depth := 33, mag := 9.5,
    label := "1960 Valdivia EQ (M9.5)" }

/-- Output image path. -/
def OUTPUT_FILE : String := "nazca_plate_map.png"

/-- The keyword arguments of the `client.get_events` call. -/
structure EventRequest where
  starttime : String
  endtime : String
  minlatitude : ℚ
  maxlatitude : ℚ
  minlongitude : ℚ
  maxlongitude : ℚ
  minmagnitude : ℚ
deriving DecidableEq

/-- The concrete request the script sends to the IRIS FDSN event service. -/
def eventRequest : EventRequest :=
  { starttime := START_TIME, endtime := END_TIME,
    minlatitude := REGION[2]!, maxlatitude := REGION[3]!,
    minlongitude := REGION[0]!, maxlongitude := REGION[1]!,
    minmagnitude := MIN_MAGNITUDE }

/-- Origin selection `event.preferred_origin() or event.origins[0]`:
the preferred origin when present, otherwise the first origin; `none`
when both are missing (in Python, the `IndexError` caught by the loop). -/
def pickOrigin (ev : Event) : Option Origin :=
  ev.preferredOrigin.orElse fun _ => ev.origins.head?

/-- Magnitude selection `event.preferred_magnitude() or event.magnitudes[0]`. -/
def pickMagnitude (ev : Event) : Option Magnitude :=
  ev.preferredMagnitude.orElse fun _ => ev.magnitudes.head?

/-- The body of the per-event `try` block: builds the DataFrame row, or
`none` when any step raises (missing origin/magnitude, `depth` of `None`,
`time` of `None`); depth is converted from metres to kilometres. -/
def extractRow (ev : Event) : Option Row := do
  let origin ← pickOrigin ev
  let magnitude ← pickMagnitude ev
  let d ← origin.depth
  let t ← origin.time
  pure { lon := origin.longitude, lat := origin.latitude,
         depth := d / 1000, mag := magnitude.mag, time := t }

/-- Membership test of the pandas boolean mask used to filter volcanoes. -/
def volcanoInRegion (v : Volcano) : Bool :=
  (v.longitude ≥ REGION[0]!) && (v.longitude ≤ REGION[1]!) &&
  (v.latitude ≥ REGION[2]!) && (v.latitude ≤ REGION[3]!)

/-- The pandas boolean-mask selection on `volcano_df`. -/
def filterVolcanoes (vs : List Volcano) : List Volcano :=
  vs.filter volcanoInRegion

/-- A layer added to the PyGMT figure, in the order the script adds them.
Each constructor records the data and style arguments the script passes. -/
inductive Layer where
  | terrain (grid : Grid) (projection : String) (cmap : String)
  | coastL (shorelines : String) (borders : String) (water : String)
  | basemapL
  | volcanoes (xs : List ℚ) (ys : List ℚ) (style : String) (color : String) (pen : String)
  | quakes (xs : List ℚ) (ys : List ℚ) (sizes : List ℚ) (depths : List ℚ)
  | star (x : ℚ) (y : ℚ) (style : String) (color : String) (pen : String)
  | textL (x : ℚ) (y : ℚ) (content : String)
  | colorbarL
  | legendL
deriving DecidableEq

/-- A figure is the list of its layers. -/
abbrev Figure := List Layer

/-- Section 4 of the script: the layers added to `fig`, in program order.
Earthquake symbol sizes are `mag * 0.05` and colors are keyed on `depth`. -/
def buildFigure (eq_df : List Row) (volcano_df : List Volcano) (grid : Grid) : Figure :=
  [ Layer.terrain grid "M15c" "geo",
    Layer.coastL "1/0.5p,black" "1/0.2p,gray" "skyblue",
    Layer.basemapL,
    Layer.volcanoes (volcano_df.map fun v => v.longitude)
      (volcano_df.map fun v => v.latitude) "t0.25c" "red" "0.5p,black",
    Layer.quakes (eq_df.map fun r => r.lon) (eq_df.map fun r => r.lat)
      (eq_df.map fun r => r.mag * 0.05) (eq_df.map fun r => r.depth),
    Layer.star FAMOUS_EQ.lon FAMOUS_EQ.lat "a0.5c" "yellow" "1p,red",
    Layer.textL FAMOUS_EQ.lon FAMOUS_EQ.lat FAMOUS_EQ.label,
    Layer.colorbarL,
    Layer.legendL ]

/-- One observable step of the run. Console prints are recorded without
their text (no claim depends on print contents). -/
inductive Step where
  | print
  | getEvents (req : EventRequest)
  | extractEvent
  | buildDataFrame
  | loadVolcanoes
  | filterVolcanoesStep
  | makecpt
  | loadRelief (resolution : String) (region : List ℚ)
  | grdimage
  | coast
  | basemap
  | plotVolcanoes (xs : List ℚ) (ys : List ℚ)
  | plotEarthquakes (xs : List ℚ) (ys : List ℚ) (sizes : List ℚ) (depths : List ℚ)
  | plotStar (x : ℚ) (y : ℚ)
  | textStep
  | colorbarStep
  | legendStep
  | savefig (path : String)
  | figShow
deriving DecidableEq

/-- Results of the library calls the script makes, together with the
pre-existing filesystem contents (which the script never reads). -/
structure Env where
  downloadResult : Except String (List Event)
  volcanoLoad : Except String (List Volcano)
  reliefLoad : Except String Grid
  priorFiles : List (String × Figure)

/-- Outcome of a completed run: the trace of steps performed and the files
written. -/
structure RunResult where
  trace : List Step
  files : List (String × Figure)
deriving DecidableEq

instance : Inhabited RunResult := ⟨{ trace := [], files := [] }⟩

/-- The catalog the script works with: the download result, or the empty
`obspy.Catalog()` substituted by the `except` clause when the download raises. -/
def catalogOf (env : Env) : List Event :=
  match env.downloadResult with
  | .ok c => c
  | .error _ => []

/-- The trace of steps a completed run performs, in program order: startup
prints, the download, the per-event conversion loop, the volcano load and
filter, the figure layers, the save and the display. -/
def mkTrace (catalog : List Event) (eq_df : List Row) (volcano_df : List Volcano) :
    List Step :=
  [Step.print, Step.print, Step.print,
   Step.getEvents eventRequest, Step.print, Step.print]
  ++ catalog.map (fun _ => Step.extractEvent)
  ++ [Step.buildDataFrame, Step.print, Step.loadVolcanoes,
      Step.filterVolcanoesStep, Step.print, Step.print,
      Step.makecpt, Step.loadRelief "02m" REGION,
      Step.grdimage, Step.coast, Step.basemap,
      Step.plotVolcanoes (volcano_df.map fun v => v.longitude)
        (volcano_df.map fun v => v.latitude),
      Step.plotEarthquakes (eq_df.map fun r => r.lon)
        (eq_df.map fun r => r.lat)
        (eq_df.map fun r => r.mag * 0.05)
        (eq_df.map fun r => r.depth),
      Step.plotStar FAMOUS_EQ.lon FAMOUS_EQ.lat,
      Step.textStep, Step.colorbarStep, Step.legendStep,
      Step.print, Step.savefig OUTPUT_FILE, Step.figShow,
      Step.print]

/-- Sections 3-4 on the completing path (reached only when `eq_df` is
nonempty, see `runScript`): build `eq_df`, filter the volcanoes, build the
figure and write the one output file. -/
def mkResult (catalog : List Event) (volcanoesRaw : List Volcano) (grid : Grid) :
    RunResult :=
  let eq_df := catalog.filterMap extractRow
  let volcano_df := filterVolcanoes volcanoesRaw
  { trace := mkTrace catalog eq_df volcano_df,
    files := [(OUTPUT_FILE, buildFigure eq_df volcano_df grid)] }

/-- The exception raised at `fig.plot(x=eq_df.lon, ...)` when `eq_df` is
the empty `pd.DataFrame([])`: an empty DataFrame has no columns, so the
attribute access `eq_df.lon` raises an uncaught `AttributeError`. -/
def attributeErrorLon : String := "AttributeError: DataFrame has no attribute lon"

/-- The whole script, sections 1-4: download (with its `try`/`except`),
per-event conversion to `eq_df`, volcano load and filter, figure
construction, and saving.  Exceptions from the volcano load and the relief
load are not caught anywhere and propagate as `.error`.  When no event
yields a row (in particular after a failed download), `eq_df` is the empty
`pd.DataFrame([])`, which has no `lon` column: evaluating `eq_df.lon` for
the earthquake plot raises an uncaught `AttributeError` — after the volcano
load and relief load have already succeeded — and the script terminates
without saving anything. -/
def runScript (env : Env) : Except String RunResult :=
  match env.volcanoLoad with
  | .error e => .error e
  | .ok volcanoesRaw =>
    match env.reliefLoad with
    | .error e => .error e
    | .ok grid =>
      if ((catalogOf env).filterMap extractRow).isEmpty then
        .error attributeErrorLon
      else
        .ok (mkResult (catalogOf env) volcanoesRaw grid)

/-- Classification of steps into the four pipeline stages: download (1),
tabular transformation/filtering (2), plotting (3), saving (4). Prints,
dataset loads and the figure display belong to no stage. -/
def stageOf : Step → Option Nat
  | .getEvents _ => some 1
  | .extractEvent => some 2
  | .buildDataFrame => some 2
  | .filterVolcanoesStep => some 2
  | .makecpt => some 3
  | .grdimage => some 3
  | .coast => some 3
  | .basemap => some 3
  | .plotVolcanoes _ _ => some 3
  | .plotEarthquakes _ _ _ _ => some 3
  | .plotStar _ _ => some 3
  | .textStep => some 3
  | .colorbarStep => some 3
  | .legendStep => some 3
  | .savefig _ => some 4
  | _ => none

/-- Does the step write to persistent storage? Only `fig.savefig` does;
prints and `fig.show` are console/display effects and the library calls
`get_events`, `load_sample_data`, `load_earth_relief` are reads. -/
def stepWritesFile : Step → Bool
  | .savefig _ => true
  | _ => false

/-- Recognizer for the event-service query step. -/
def stepIsGetEvents : Step → Bool
  | .getEvents _ => true
  | _ => false

/-- Recognizer for the save step. -/
def stepIsSavefig : Step → Bool
  | .savefig _ => true
  | _ => false

/-- Projection used to state determinism: the files a run writes. -/
def outputFiles (env : Env) : Except String (List (String × Figure)) :=
  (runScript env).map fun r => r.files

/-- Helper extracting the result of a successful run. -/
def extractOk : Except String RunResult → RunResult
  | .ok r => r
  | .error _ => default

/-! Concrete data used by the witness theorems. -/

/-- A concrete origin: 33 km deep (33000 m, as obspy stores depths). -/
def wOrigin : Origin :=
  { longitude := -73, latitude := -30, depth := some 33000, time := some "2015-09-16" }

/-- A concrete magnitude value. -/
def wMagnitude : Magnitude := { mag := 83/10 }

/-- A concrete event carrying `wOrigin` and `wMagnitude` as preferred. -/
def wEvent : Event :=
  { preferredOrigin := some wOrigin, origins := [],
    preferredMagnitude := some wMagnitude, magnitudes := [] }

/-- A volcano inside the Nazca bounding box. -/
def wVolcano : Volcano := { longitude := -72, latitude := -40, name := "Villarrica" }

/-- A volcano outside the Nazca bounding box. -/
def wVolcanoOut : Volcano := { longitude := 14, latitude := 40, name := "Vesuvius" }

/-- A concrete relief grid. -/
def wGrid : Grid := { values := [[0, 1], [2, 3]] }

/-- A fully successful environment. -/
def wEnv : Env :=
  { downloadResult := .ok [wEvent], volcanoLoad := .ok [wVolcano, wVolcanoOut],
    reliefLoad := .ok wGrid, priorFiles := [] }

/-- The successful environment with a different pre-existing filesystem. -/
def wEnvPrior : Env := { wEnv with priorFiles := [(OUTPUT_FILE, [Layer.basemapL])] }

/-- An environment whose download raises. -/
def wEnvFail : Env := { wEnv with downloadResult := .error "boom" }

/-- An event with no origin and no magnitude: reading `event.origins[0]`
raises inside the per-event `try` block, so the loop skips it. -/
def wBadEvent : Event :=
  { preferredOrigin := none, origins := [],
    preferredMagnitude := none, magnitudes := [] }

/-- A successful environment whose catalog mixes an extractable event with
one whose field access raises. -/
def wEnvMixed : Env := { wEnv with downloadResult := .ok [wEvent, wBadEvent] }

/-! Helper lemmas shared between the claim theorems. -/

/-- Inversion for a successful run: both dataset loads succeeded and at
least one event yielded a row (otherwise the empty-DataFrame
`AttributeError` would have aborted the run). -/
lemma runScript_ok_iff (env : Env) (r : RunResult) :
    runScript env = .ok r ↔
      ∃ vs g, env.volcanoLoad = .ok vs ∧ env.reliefLoad = .ok g ∧
        ((catalogOf env).filterMap extractRow).isEmpty = false ∧
        r = mkResult (catalogOf env) vs g := by
  cases hv : env.volcanoLoad with
  | error e => simp [runScript, hv]
  | ok vs =>
    cases hg : env.reliefLoad with
    | error e => simp [runScript, hv, hg]
    | ok g =>
      cases he : ((catalogOf env).filterMap extractRow).isEmpty with
      | true => simp [runScript, hv, hg, he]
      | false =>
        simp only [runScript, hv, hg, he, Bool.false_eq_true, if_false,
          Except.ok.injEq]
        constructor
        · intro h; exact ⟨vs, g, rfl, rfl, trivial, h.symm⟩
        · rintro ⟨vs2, g2, h1, h2, h3, h4⟩
          cases h1; cases h2; exact h4.symm

/-- The stages contributed by the tail of the trace, after the per-event
conversion loop: DataFrame build (2), volcano filter (2), the ten plotting
calls (3), the save (4). -/
def stageTail : List Nat := [2, 2, 3, 3, 3, 3, 3, 3, 3, 3, 3, 3, 4]

/-- The per-event loop contributes one stage-2 entry per catalog event. -/
lemma filterMap_stage_extract (catalog : List Event) :
    (catalog.map fun _ => Step.extractEvent).filterMap stageOf =
      List.replicate catalog.length 2 := by
  induction catalog with
  | nil => rfl
  | cons e tl ih => simp [List.replicate_succ, stageOf, ih]

/-- Stage decomposition of the full trace. -/
lemma mkTrace_stages (catalog : List Event) (eq_df : List Row)
    (volcano_df : List Volcano) :
    (mkTrace catalog eq_df volcano_df).filterMap stageOf =
      1 :: (List.replicate catalog.length 2 ++ stageTail) := by
  simp [mkTrace, List.filterMap_append, filterMap_stage_extract, stageOf, stageTail]

/-- The stage sequence `1, 2, ..., 2, 2, 2, 3, ..., 3, 4` is monotone. -/
lemma stages_sorted (n : Nat) :
    (1 :: (List.replicate n 2 ++ stageTail)).Pairwise (fun a b => a ≤ b) := by
  have htail : List.Pairwise (fun a b : Nat => a ≤ b) stageTail := by decide
  have htail2 : ∀ b ∈ stageTail, 2 ≤ b := by decide
  have hrep : List.Pairwise (fun a b : Nat => a ≤ b) (List.replicate n 2) :=
    List.pairwise_replicate.mpr (Or.inr le_rfl)
  refine List.Pairwise.cons ?_ ?_
  · intro b hb
    rcases List.mem_append.mp hb with hb | hb
    · rcases List.eq_of_mem_replicate hb with rfl; omega
    · have := htail2 b hb; omega
  · refine List.pairwise_append.mpr ⟨hrep, htail, ?_⟩
    intro a ha b hb
    rcases List.eq_of_mem_replicate ha with rfl
    exact htail2 b hb

/-- The only save step in a trace is the single `fig.savefig(OUTPUT_FILE)`. -/
lemma mkTrace_filter_savefig (catalog : List Event) (eq_df : List Row)
    (volcano_df : List Volcano) :
    (mkTrace catalog eq_df volcano_df).filter stepIsSavefig =
      [Step.savefig OUTPUT_FILE] := by
  simp [mkTrace, List.filter_append, List.filter_map, stepIsSavefig, Function.comp_def]

/-- The only file-writing step in a trace is the single save. -/
lemma mkTrace_filter_writes (catalog : List Event) (eq_df : List Row)
    (volcano_df : List Volcano) :
    (mkTrace catalog eq_df volcano_df).filter stepWritesFile =
      [Step.savefig OUTPUT_FILE] := by
  simp [mkTrace, List.filter_append, List.filter_map, stepWritesFile, Function.comp_def]

/-- The only event-service query in a trace is the one with `eventRequest`. -/
lemma mkTrace_filter_getEvents (catalog : List Event) (eq_df : List Row)
    (volcano_df : List Volcano) :
    (mkTrace catalog eq_df volcano_df).filter stepIsGetEvents =
      [Step.getEvents eventRequest] := by
  simp [mkTrace, List.filter_append, List.filter_map, stepIsGetEvents, Function.comp_def]

/-- The script never reads the pre-existing filesystem. -/
lemma runScript_ignores_prior (env : Env) (p : List (String × Figure)) :
    runScript { env with priorFiles := p } = runScript env := by
  rfl

/-- The boolean mask holds exactly on the inclusive bounding box. -/
lemma volcanoInRegion_iff (v : Volcano) :
    volcanoInRegion v = true ↔
      (-110 ≤ v.longitude ∧ v.longitude ≤ -70 ∧
       -60 ≤ v.latitude ∧ v.latitude ≤ 10) := by
  simp [volcanoInRegion, REGION, ge_iff_le, and_assoc]

/-- C7: the volcano filter is exactly an inclusive bounding-box
restriction: a row is retained iff its longitude lies in [-110, -70] and
its latitude lies in [-60, 10]; retained rows are unmodified and appear as
a sublist of the input. -/
theorem C7_volcano_filter (vs : List Volcano) (v : Volcano) :
    (v ∈ filterVolcanoes vs ↔
      v ∈ vs ∧ (-110 ≤ v.longitude ∧ v.longitude ≤ -70 ∧
                -60 ≤ v.latitude ∧ v.latitude ≤ 10)) ∧
    (filterVolcanoes vs).Sublist vs := by
  refine ⟨?_, List.filter_sublist vs⟩
  rw [filterVolcanoes, List.mem_filter, volcanoInRegion_iff]

/-- C7 witness: the in-box volcano is retained from a concrete dataset. -/
theorem C7_volcano_filter_witness :
    wVolcano ∈ filterVolcanoes [wVolcano, wVolcanoOut] :=
  (C7_volcano_filter [wVolcano, wVolcanoOut] wVolcano).1.mpr
    ⟨by decide, by norm_num [wVolcano]⟩

/-- C6: for every event whose origin and magnitude can be read, the row has
`lon`/`lat` copied from the chosen origin (preferred when present, else the
first), `depth` equal to the origin depth in metres divided by 1000, and
`mag` from the chosen magnitude (preferred when present, else the first);
events whose extraction raises contribute no row, and the DataFrame has at
most as many rows as the catalog has events. -/
theorem C6_event_extraction (cat : List Event) :
    (∀ ev ∈ cat, ∀ o m d t, pickOrigin ev = some o → pickMagnitude ev = some m →
        o.depth = some d → o.time = some t →
        extractRow ev = some { lon := o.longitude, lat := o.latitude,
                               depth := d / 1000, mag := m.mag, time := t }) ∧
    (∀ ev o, ev.preferredOrigin = some o → pickOrigin ev = some o) ∧
    (∀ ev : Event, ev.preferredOrigin = none → pickOrigin ev = ev.origins.head?) ∧
    (∀ ev m, ev.preferredMagnitude = some m → pickMagnitude ev = some m) ∧
    (∀ ev : Event, ev.preferredMagnitude = none →
        pickMagnitude ev = ev.magnitudes.head?) ∧
    (∀ ev ∈ cat, pickOrigin ev = none ∨ pickMagnitude ev = none ∨
        (∀ o, pickOrigin ev = some o → o.depth = none ∨ o.time = none) →
        extractRow ev = none) ∧
    (cat.filterMap extractRow).length ≤ cat.length := by
  refine ⟨?_, ?_, ?_, ?_, ?_, ?_, List.length_filterMap_le _ _⟩
  · intro ev _ o m d t ho hm hd ht
    simp [extractRow, ho, hm, hd, ht]
  · intro ev o h; simp [pickOrigin, h, Option.orElse]
  · intro ev h; cases hh : ev.origins.head? <;>
      simp [pickOrigin, h, Option.orElse, hh]
  · intro ev m h; simp [pickMagnitude, h, Option.orElse]
  · intro ev h; cases hh : ev.magnitudes.head? <;>
      simp [pickMagnitude, h, Option.orElse, hh]
  · intro ev _ hfail
    cases ho : pickOrigin ev with
    | none => simp [extractRow, ho]
    | some o =>
      cases hm : pickMagnitude ev with
      | none => simp [extractRow, ho, hm]
      | some m =>
        rcases hfail with hfail | hfail | hfail
        · exact absurd ho (by simp [hfail])
        · exact absurd hm (by simp [hfail])
        · rcases hfail o ho with hd | ht
          · simp [extractRow, ho, hm, hd]
          · simp [extractRow, ho, hm, ht]

/-- C6 witness: the concrete event is converted to the expected row, with
its 33000 m depth becoming 33 km. -/
theorem C6_event_extraction_witness :
    extractRow wEvent = some { lon := -73, lat := -30, depth := 33,
                               mag := 83/10, time := "2015-09-16" } := by
  have h := (C6_event_extraction [wEvent]).1 wEvent (by simp)
    wOrigin wMagnitude 33000 "2015-09-16" rfl rfl rfl rfl
  rw [h]
  norm_num [wOrigin, wMagnitude]

/-- C8: on a completed run exactly one image is saved, at the fixed path
`nazca_plate_map.png`. -/
theorem C8_single_save (env : Env) (r : RunResult)
    (h : runScript env = .ok r) :
    r.trace.filter stepIsSavefig = [Step.savefig OUTPUT_FILE] ∧
    r.files.map Prod.fst = [OUTPUT_FILE] := by
  obtain ⟨vs, g, hv, hg, hne, rfl⟩ := (runScript_ok_iff env r).mp h
  exact ⟨mkTrace_filter_savefig _ _ _, rfl⟩

/-- C8 witness: the concrete successful run saves exactly one image. -/
theorem C8_single_save_witness :
    (extractOk (runScript wEnv)).trace.filter stepIsSavefig =
      [Step.savefig OUTPUT_FILE] ∧
    (extractOk (runScript wEnv)).files.map Prod.fst = [OUTPUT_FILE] :=
  C8_single_save wEnv (extractOk (runScript wEnv)) rfl

/-- C9: the run has no persistent state: the only persistent-storage
effect in the trace is the single write of the output image, the files
written are exactly that image, and the run result is unchanged by
whatever state (e.g. files of earlier runs) already exists. -/
theorem C9_no_persistent_state (env : Env) (r : RunResult)
    (h : runScript env = .ok r) :
    r.trace.filter stepWritesFile = [Step.savefig OUTPUT_FILE] ∧
    r.files.map Prod.fst = [OUTPUT_FILE] ∧
    ∀ p, runScript { env with priorFiles := p } = runScript env := by
  obtain ⟨vs, g, hv, hg, hne, rfl⟩ := (runScript_ok_iff env r).mp h
  exact ⟨mkTrace_filter_writes _ _ _, rfl, fun p => runScript_ignores_prior env p⟩

/-- C9 witness: instantiation at the concrete successful run. -/
theorem C9_no_persistent_state_witness :
    (extractOk (runScript wEnv)).trace.filter stepWritesFile =
      [Step.savefig OUTPUT_FILE] ∧
    (extractOk (runScript wEnv)).files.map Prod.fst = [OUTPUT_FILE] ∧
    ∀ p, runScript { wEnv with priorFiles := p } = runScript wEnv :=
  C9_no_persistent_state wEnv (extractOk (runScript wEnv)) rfl

/-- C3: the run is deterministic in its inputs: two environments that
agree on the downloaded catalog, the loaded volcano dataset and the loaded
relief grid produce the same run result, in particular the same output
image, whatever other state differs. -/
theorem C3_deterministic (e1 e2 : Env)
    (hd : e1.downloadResult = e2.downloadResult)
    (hv : e1.volcanoLoad = e2.volcanoLoad)
    (hr : e1.reliefLoad = e2.reliefLoad) :
    runScript e1 = runScript e2 ∧ outputFiles e1 = outputFiles e2 := by
  have key : runScript e1 = runScript e2 := by
    unfold runScript catalogOf
    rw [hd, hv, hr]
  exact ⟨key, by rw [outputFiles, outputFiles, key]⟩

/-- C3 witness: two runs differing only in the pre-existing filesystem
produce the same output. -/
theorem C3_deterministic_witness :
    runScript wEnv = runScript wEnvPrior ∧
    outputFiles wEnv = outputFiles wEnvPrior :=
  C3_deterministic wEnv wEnvPrior rfl rfl rfl

/-- C5: the pipeline's stages happen strictly in order: the download is
the first staged step, every per-event conversion and the volcano filter
come after it and before every plotting call, and the save is last. -/
theorem C5_stage_order (env : Env) (r : RunResult)
    (h : runScript env = .ok r) :
    r.trace.filterMap stageOf =
      1 :: (List.replicate (catalogOf env).length 2 ++ stageTail) ∧
    (r.trace.filterMap stageOf).Pairwise (fun a b => a ≤ b) := by
  obtain ⟨vs, g, hv, hg, hne, rfl⟩ := (runScript_ok_iff env r).mp h
  have heq : (mkResult (catalogOf env) vs g).trace.filterMap stageOf =
      1 :: (List.replicate (catalogOf env).length 2 ++ stageTail) :=
    mkTrace_stages _ _ _
  refine ⟨heq, ?_⟩
  rw [heq]
  exact stages_sorted _

/-- C5 witness: stage ordering on the concrete successful run. -/
theorem C5_stage_order_witness :
    (extractOk (runScript wEnv)).trace.filterMap stageOf =
      1 :: (List.replicate (catalogOf wEnv).length 2 ++ stageTail) ∧
    ((extractOk (runScript wEnv)).trace.filterMap stageOf).Pairwise
      (fun a b => a ≤ b) :=
  C5_stage_order wEnv (extractOk (runScript wEnv)) rfl

/-- C1: the completed run queries the IRIS FDSN event service exactly once,
with the REGION bounding box, the 2010-01-01 to 2025-01-01 time window and
minimum magnitude 5.5; it keeps exactly the volcanoes inside that same
inclusive bounding box; and it saves one map whose layers include the
terrain relief, the filtered earthquakes and the filtered volcanoes. -/
theorem C1_pipeline (env : Env) (r : RunResult)
    (cat : List Event) (hd : env.downloadResult = .ok cat)
    (vs : List Volcano) (hv : env.volcanoLoad = .ok vs)
    (g : Grid) (hg : env.reliefLoad = .ok g)
    (h : runScript env = .ok r) :
    r.trace.filter stepIsGetEvents =
      [Step.getEvents { starttime := "2010-01-01", endtime := "2025-01-01",
                        minlatitude := -60, maxlatitude := 10,
                        minlongitude := -110, maxlongitude := -70,
                        minmagnitude := 5.5 }] ∧
    (∀ v : Volcano, volcanoInRegion v = true ↔
        (-110 ≤ v.longitude ∧ v.longitude ≤ -70 ∧
         -60 ≤ v.latitude ∧ v.latitude ≤ 10)) ∧
    r.trace.filter stepIsSavefig = [Step.savefig OUTPUT_FILE] ∧
    (∃ fig, r.files = [(OUTPUT_FILE, fig)] ∧
      Layer.terrain g "M15c" "geo" ∈ fig ∧
      Layer.quakes ((cat.filterMap extractRow).map fun q => q.lon)
        ((cat.filterMap extractRow).map fun q => q.lat)
        ((cat.filterMap extractRow).map fun q => q.mag * 0.05)
        ((cat.filterMap extractRow).map fun q => q.depth) ∈ fig ∧
      Layer.volcanoes ((vs.filter volcanoInRegion).map fun v => v.longitude)
        ((vs.filter volcanoInRegion).map fun v => v.latitude)
        "t0.25c" "red" "0.5p,black" ∈ fig) := by
  obtain ⟨vs2, g2, hv2, hg2, hne, rfl⟩ := (runScript_ok_iff env r).mp h
  rw [hv] at hv2
  rw [hg] at hg2
  cases hv2
  cases hg2
  have hcat : catalogOf env = cat := by rw [catalogOf, hd]
  refine ⟨?_, volcanoInRegion_iff, ?_, ?_⟩
  · rw [show (mkResult (catalogOf env) vs g).trace =
        mkTrace (catalogOf env) ((catalogOf env).filterMap extractRow)
          (filterVolcanoes vs) from rfl,
      mkTrace_filter_getEvents]
    rfl
  · exact mkTrace_filter_savefig _ _ _
  · refine ⟨buildFigure ((catalogOf env).filterMap extractRow)
      (filterVolcanoes vs) g, rfl, ?_, ?_, ?_⟩
    · simp [buildFigure]
    · rw [hcat]; simp [buildFigure]
    · rw [show vs.filter volcanoInRegion = filterVolcanoes vs from rfl]
      simp [buildFigure]

/-- C1 witness: instantiation at the concrete successful run. -/
theorem C1_pipeline_witness :
    (extractOk (runScript wEnv)).trace.filter stepIsGetEvents =
      [Step.getEvents { starttime := "2010-01-01", endtime := "2025-01-01",
                        minlatitude := -60, maxlatitude := 10,
                        minlongitude := -110, maxlongitude := -70,
                        minmagnitude := 5.5 }] ∧
    (∀ v : Volcano, volcanoInRegion v = true ↔
        (-110 ≤ v.longitude ∧ v.longitude ≤ -70 ∧
         -60 ≤ v.latitude ∧ v.latitude ≤ 10)) ∧
    (extractOk (runScript wEnv)).trace.filter stepIsSavefig =
      [Step.savefig OUTPUT_FILE] ∧
    (∃ fig, (extractOk (runScript wEnv)).files = [(OUTPUT_FILE, fig)] ∧
      Layer.terrain wGrid "M15c" "geo" ∈ fig ∧
      Layer.quakes (([wEvent].filterMap extractRow).map fun q => q.lon)
        (([wEvent].filterMap extractRow).map fun q => q.lat)
        (([wEvent].filterMap extractRow).map fun q => q.mag * 0.05)
        (([wEvent].filterMap extractRow).map fun q => q.depth) ∈ fig ∧
      Layer.volcanoes
        (([wVolcano, wVolcanoOut].filter volcanoInRegion).map fun v => v.longitude)
        (([wVolcano, wVolcanoOut].filter volcanoInRegion).map fun v => v.latitude)
        "t0.25c" "red" "0.5p,black" ∈ fig) :=
  C1_pipeline wEnv (extractOk (runScript wEnv)) [wEvent] rfl
    [wVolcano, wVolcanoOut] rfl wGrid rfl rfl

/-- C4 counterexample: at a concrete input whose download raises (with
both dataset loads succeeding), the program does terminate and no map is
saved: the run ends with the uncaught `AttributeError` raised when the
earthquake plot evaluates `eq_df.lon` on the empty DataFrame. -/
theorem C4_counterexample :
    runScript wEnvFail = Except.error attributeErrorLon ∧
    ∀ r, runScript wEnvFail ≠ Except.ok r := by
  refine ⟨rfl, ?_⟩
  intro r h
  rw [show runScript wEnvFail = Except.error attributeErrorLon from rfl] at h
  exact Except.noConfusion h

/-- C4 (amended): when the IRIS download raises, the script catches the
exception and substitutes an empty `obspy.Catalog`, so the earthquake
DataFrame is empty — but `pd.DataFrame([])` has no `lon` column, so
plotting the earthquakes raises an uncaught `AttributeError` and the run
terminates with that exception instead of saving any map. -/
theorem C4_download_failure_crashes (env : Env) (msg : String)
    (hd : env.downloadResult = .error msg)
    (vs : List Volcano) (hv : env.volcanoLoad = .ok vs)
    (g : Grid) (hg : env.reliefLoad = .ok g) :
    catalogOf env = [] ∧
    (catalogOf env).filterMap extractRow = [] ∧
    runScript env = .error attributeErrorLon ∧
    ∀ r, runScript env ≠ .ok r := by
  have hcat : catalogOf env = [] := by rw [catalogOf, hd]
  have hrun : runScript env = .error attributeErrorLon := by
    simp [runScript, hv, hg, hcat]
  refine ⟨hcat, by simp [hcat], hrun, ?_⟩
  intro r h
  rw [hrun] at h
  exact Except.noConfusion h

/-- C4 witness: instantiation at the concrete failing-download run. -/
theorem C4_download_failure_crashes_witness :
    catalogOf wEnvFail = [] ∧
    (catalogOf wEnvFail).filterMap extractRow = [] ∧
    runScript wEnvFail = .error attributeErrorLon ∧
    ∀ r, runScript wEnvFail ≠ .ok r :=
  C4_download_failure_crashes wEnvFail "boom" rfl
    [wVolcano, wVolcanoOut] rfl wGrid rfl

/-- C2 counterexample: library exceptions do not simply propagate to the
caller.  A per-event field-access failure is caught and the run completes
normally (at `wEnvMixed`, whose catalog contains an event with no origins
and no magnitudes); and the download exception of `wEnvFail` ("boom") is
caught and replaced by the empty catalog — what the caller eventually sees
is a different, later exception (the empty-DataFrame `AttributeError`),
not the download exception. -/
theorem C2_counterexample :
    (pickOrigin wBadEvent = none ∧ extractRow wBadEvent = none ∧
      (∃ r, runScript wEnvMixed = Except.ok r) ∧
      ∀ e, runScript wEnvMixed ≠ Except.error e) ∧
    (runScript wEnvFail = Except.error attributeErrorLon ∧
      runScript wEnvFail ≠ Except.error "boom") := by
  refine ⟨⟨rfl, rfl, ⟨extractOk (runScript wEnvMixed), rfl⟩, ?_⟩, rfl, ?_⟩
  · intro e h
    rw [show runScript wEnvMixed =
        Except.ok (extractOk (runScript wEnvMixed)) from rfl] at h
    exact Except.noConfusion h
  · intro h
    rw [show runScript wEnvFail =
        Except.error attributeErrorLon from rfl] at h
    have : attributeErrorLon = "boom" := by
      injection h
    exact absurd this (by decide)

/-- C2 (amended): exceptions from the IRIS download are caught and replaced
by the empty catalog (after which the run behaves exactly as if the
download had returned no events, which later raises the empty-DataFrame
`AttributeError`), and a per-event extraction failure merely skips the
event; exceptions from the other library calls (the volcano dataset load
and the relief load) are not caught and propagate to the caller. -/
theorem C2_exception_handling (env : Env) :
    (∀ e, env.downloadResult = Except.error e →
        runScript env = runScript { env with downloadResult := Except.ok [] }) ∧
    (∀ ev : Event, pickOrigin ev = none → extractRow ev = none) ∧
    (∀ e, env.volcanoLoad = Except.error e → runScript env = Except.error e) ∧
    (∀ e vs, env.volcanoLoad = Except.ok vs → env.reliefLoad = Except.error e →
        runScript env = Except.error e) := by
  refine ⟨?_, ?_, ?_, ?_⟩
  · intro e h
    unfold runScript catalogOf
    rw [h]
  · intro ev h; simp [extractRow, h]
  · intro e h; rw [runScript, h]
  · intro e vs hv hg; rw [runScript, hv, hg]

/-- C2 witness: at the concrete failing-download environment the run
coincides with the empty-catalog run. -/
theorem C2_exception_handling_witness :
    runScript wEnvFail =
      runScript { wEnvFail with downloadResult := Except.ok [] } :=
  (C2_exception_handling wEnvFail).1 "boom" rfl

/-- The concrete event is converted to this row. -/
def wRow : Row :=
  { lon := -73, lat := -30, depth := 33, mag := 83/10, time := "2015-09-16" }

/-- Evaluation of the extraction on the concrete event. -/
lemma extractRow_wEvent : extractRow wEvent = some wRow := by
  norm_num [extractRow, pickOrigin, pickMagnitude, wEvent, wOrigin, wMagnitude,
    Option.orElse, wRow]

/-- C10 counterexample: the plotted earthquake depths and symbol sizes are
script-computed, not values taken unchanged from the input data: the input
event has depth 33000 (metres) and magnitude 83/10, but the saved figure's
earthquake layer holds depth 33 (= 33000/1000) and size 83/200
(= 83/10 times 0.05). -/
theorem C10_counterexample :
    wOrigin.depth = some 33000 ∧ wMagnitude.mag = 83/10 ∧
    (∃ fig, (extractOk (runScript wEnv)).files = [(OUTPUT_FILE, fig)] ∧
      Layer.quakes [-73] [-30] [83/200] [33] ∈ fig) ∧
    (33 : ℚ) ≠ 33000 ∧ (83/200 : ℚ) ≠ 83/10 := by
  refine ⟨rfl, rfl,
    ⟨buildFigure ([wEvent].filterMap extractRow)
      (filterVolcanoes [wVolcano, wVolcanoOut]) wGrid, rfl, ?_⟩,
    by norm_num, by norm_num⟩
  have hrow : [wEvent].filterMap extractRow = [wRow] := by
    simp [List.filterMap_cons, extractRow_wEvent]
  rw [hrow]
  simp [buildFigure, wRow]
  norm_num

/-- C10 (amended): the script applies exactly two pieces of its own
arithmetic to the data — the metres-to-kilometres conversion `depth / 1000`
when building a row, and the symbol size `mag * 0.05` when plotting; the
row's `lon`, `lat` and `mag` are copied unchanged from the chosen origin
and magnitude, and the volcano layer plots the filtered coordinates
unchanged. -/
theorem C10_only_unit_conversions (ev : Event) (o : Origin) (m : Magnitude)
    (q : Row) (ho : pickOrigin ev = some o) (hm : pickMagnitude ev = some m)
    (hq : extractRow ev = some q) :
    q.lon = o.longitude ∧ q.lat = o.latitude ∧ q.mag = m.mag ∧
    (∀ d, o.depth = some d → q.depth = d / 1000) ∧
    ∀ eq_df volcano_df grid,
      Layer.quakes (eq_df.map fun s => s.lon) (eq_df.map fun s => s.lat)
          (eq_df.map fun s => s.mag * 0.05) (eq_df.map fun s => s.depth)
        ∈ buildFigure eq_df volcano_df grid ∧
      Layer.volcanoes (volcano_df.map fun v => v.longitude)
          (volcano_df.map fun v => v.latitude) "t0.25c" "red" "0.5p,black"
        ∈ buildFigure eq_df volcano_df grid := by
  cases hd : o.depth with
  | none => simp [extractRow, ho, hm, hd] at hq
  | some d =>
    cases ht : o.time with
    | none => simp [extractRow, ho, hm, hd, ht] at hq
    | some t =>
      have hrow : { lon := o.longitude, lat := o.latitude, depth := d / 1000,
                    mag := m.mag, time := t : Row } = q := by
        have := hq
        simp [extractRow, ho, hm, hd, ht] at this
        exact this
      subst hrow
      refine ⟨rfl, rfl, rfl, ?_, ?_⟩
      · intro d2 hd2
        cases hd2
        rfl
      · intro eq_df volcano_df grid
        exact ⟨by simp [buildFigure], by simp [buildFigure]⟩

/-- C10 witness: the concrete event's row shows the copied fields and the
depth conversion. -/
theorem C10_only_unit_conversions_witness :
    wRow.lon = wOrigin.longitude ∧ wRow.lat = wOrigin.latitude ∧
    wRow.mag = wMagnitude.mag ∧ wRow.depth = 33000 / 1000 := by
  obtain ⟨h1, h2, h3, h4, h5⟩ :=
    C10_only_unit_conversions wEvent wOrigin wMagnitude wRow rfl rfl
      extractRow_wEvent
  exact ⟨h1, h2, h3, h4 33000 rfl⟩
